import Mathlib

/-!
# Verification of the zakuro worker, client and processor layer

A shallow embedding of the parts of the `zakuro` repository that the
specification talks about:

* `src/zakuro/worker/executor.py` — `execute_function`, the in-memory
  instance store (`_instances`, `_instance_counter`, `_store_instance`,
  `_get_instance`);
* `src/zakuro/worker/server.py` — the `POST /execute` endpoint and the
  `GET /info` payload shape;
* `src/zakuro/processors/base.py` — `ProcessorConfig.from_uri` and
  `ProcessorConfig._default_port`;
* `src/zakuro/processors/broker.py` — identity resolution in
  `BrokerProcessor.connect`;
* `src/zakuro/proxy.py` / `src/zakuro/client.py` — the
  `RemoteProxy` → `ZakuroClient.execute` call;
* `src/zakuro/compute.py` — the resource-validation tail of `Compute.check`.

The cloudpickle serialization format is opaque in the spec, so the wire is
modelled as a tagged envelope: request bytes either decode to a task
payload or fail to decode (`TaskBlob`), and response bytes are the decoded
response value itself (serialization followed by deserialization is the
identity on the opaque blob).  Python exceptions that are `Exception`
subclasses are modelled by `PyExc` (a class name together with a message);
calling a Python object is modelled semantically by a Lean function
returning `Except PyExc _`.
-/

set_option autoImplicit false

namespace Zakuro

/-- A Python exception value (an `Exception` subclass): the class name and
the message it was constructed with. -/
structure PyExc where
  ty : String
  msg : String
deriving DecidableEq, Repr

/-- Python values that travel through the cloudpickle envelope, as far as
the worker and client code inspects them: `None`, booleans, numbers,
strings, lists, string-keyed dicts and exception objects. -/
inductive PyVal where
  | none
  | bool (b : Bool)
  | num (q : Rat)
  | str (s : String)
  | list (xs : List PyVal)
  | dict (entries : List (String × PyVal))
  | exc (e : PyExc)

/-- Python dict lookup `d.get(k)`, as the executor performs it: the value of the first (and only) binding
of `k`, or `None` when the key is absent.  Dicts are modelled as
association lists where assignment prepends, so the first match is the
current binding. -/
def dictGet (d : List (String × PyVal)) (k : String) : Option PyVal :=
  match d with
  | [] => Option.none
  | (k₂, v) :: rest => if k₂ = k then some v else dictGet rest k

/-- The semantics of a Python callable returning an ordinary value:
positional arguments, keyword arguments, and either a result or a raised
exception. -/
def PyCallable := List PyVal → List (String × PyVal) → Except PyExc PyVal

/-- A stored Python instance, modelled by its attribute lookup:
`getattr(instance, name)` yields a bound method (or raises
`AttributeError`). -/
structure PyInstance where
  getattr : String → Except PyExc PyCallable

/-- The semantics of a Python class used as a constructor: calling it
either returns an instance or raises. -/
def PyClass := List PyVal → List (String × PyVal) → Except PyExc PyInstance

/-- The decoded task payload, mirroring exactly the dict keys that
`executor.execute_function` reads: `action`, `func`, `args`, `kwargs`,
`klass`, `instance_id`, `method`.  A field is `none` when the key is
absent from the dict. -/
structure TaskPayload where
  action : Option String := Option.none
  func : Option PyCallable := Option.none
  args : List PyVal := []
  kwargs : List (String × PyVal) := []
  klass : Option PyClass := Option.none
  instance_id : Option String := Option.none
  method : Option String := Option.none

/-- A request body as seen through the opaque cloudpickle envelope: either
bytes that decode to a task payload, or bytes whose deserialization raises
an exception (`cloudpickle.loads` fails). -/
inductive TaskBlob where
  | ok (p : TaskPayload)
  | corrupt (e : PyExc)

/-- The executor's process-wide state: the `_instances` store (an
association list where assignment prepends) and the `_instance_counter`. -/
structure ExecState where
  instances : List (String × PyInstance)
  counter : Nat

/-- The initial executor state: empty `_instances`, `_instance_counter = 0`. -/
def ExecState.init : ExecState := ⟨[], 0⟩

/-- Lookup in the `_instances` dict (first binding wins, matching dict
assignment modelled as prepending). -/
def instGet (l : List (String × PyInstance)) (k : String) : Option PyInstance :=
  match l with
  | [] => Option.none
  | (k₂, v) :: rest => if k₂ = k then some v else instGet rest k

/-- Model of `executor._store_instance`: increment the global counter, store the
instance under `"instance_{counter}"` and return that id. -/
def store_instance (st : ExecState) (inst : PyInstance) : String × ExecState :=
  let n := st.counter + 1
  let id := "instance_" ++ toString n
  (id, { instances := (id, inst) :: st.instances, counter := n })

/-- Model of `executor._get_instance`: look the id up in `_instances`, raising
`ValueError("Instance not found: ...")` when absent. -/
def get_instance (st : ExecState) (id : String) : Except PyExc PyInstance :=
  match instGet st.instances id with
  | some i => Except.ok i
  | Option.none => Except.error ⟨"ValueError", "Instance not found: " ++ id⟩

/-- The `try:` block of `executor.execute_function` after a successful
decode, following the source line by line:

* `action = data.get("action", "execute")`;
* `if action == "execute" or "func" in data`: call `data["func"]`
  (`KeyError` when absent) on `args`/`kwargs` and serialize the result;
* `elif action == "create_instance"`: construct `data["klass"]`, store it
  under the client id when that id is truthy, under a generated id
  otherwise, and answer with the `{"instance_id": id}` envelope;
* `elif action == "call_method"`: read `data["instance_id"]` and
  `data["method"]` (`KeyError` when absent), look the instance up, fetch
  the method with `getattr` and call it;
* `else`: raise `ValueError("Unknown action: ...")`. -/
def execute_function_body (p : TaskPayload) (st : ExecState) :
    Except PyExc (PyVal × ExecState) :=
  let action := p.action.getD "execute"
  if action = "execute" ∨ p.func.isSome then
    match p.func with
    | some f => do
        let r ← f p.args p.kwargs
        pure (r, st)
    | Option.none => Except.error ⟨"KeyError", "func"⟩
  else if action = "create_instance" then
    match p.klass with
    | some k => do
        let inst ← k p.args p.kwargs
        match p.instance_id with
        | some cid =>
            if cid ≠ "" then
              pure (PyVal.dict [("instance_id", PyVal.str cid)],
                    { st with instances := (cid, inst) :: st.instances })
            else
              let (gid, st₂) := store_instance st inst
              pure (PyVal.dict [("instance_id", PyVal.str gid)], st₂)
        | Option.none =>
            let (gid, st₂) := store_instance st inst
            pure (PyVal.dict [("instance_id", PyVal.str gid)], st₂)
    | Option.none => Except.error ⟨"KeyError", "klass"⟩
  else if action = "call_method" then
    match p.instance_id with
    | Option.none => Except.error ⟨"KeyError", "instance_id"⟩
    | some iid =>
        match p.method with
        | Option.none => Except.error ⟨"KeyError", "method"⟩
        | some m => do
            let inst ← get_instance st iid
            let meth ← inst.getattr m
            let r ← meth p.args p.kwargs
            pure (r, st)
  else
    Except.error ⟨"ValueError", "Unknown action: " ++ action⟩

/-- Model of `executor.execute_function`: decode the payload, run the dispatch, and
catch every exception raised inside (`except Exception as e`), answering
with the serialized exception instead of propagating it.  The function is
total on blobs: it always produces response bytes. -/
def execute_function (b : TaskBlob) (st : ExecState) : PyVal × ExecState :=
  match b with
  | TaskBlob.corrupt e => (PyVal.exc e, st)
  | TaskBlob.ok p =>
      match execute_function_body p st with
      | Except.ok r => r
      | Except.error e => (PyVal.exc e, st)

/-- An HTTP response from the worker's `/execute` route: either an
octet-stream blob response with a status code, or a FastAPI
`HTTPException` (JSON error body) with a status code. -/
inductive WorkerResponse where
  | blob (status : Nat) (body : PyVal)
  | httpException (status : Nat) (detail : String)

/-- Model of `server.execute` (the `POST /execute` handler): raise
`HTTPException(503)` while the pool is uninitialized, otherwise run
`execute_function` in the pool and wrap its bytes in a `Response` whose
status defaults to 200.  (The handler's own `except` branch also answers
with status 200, so no other status can be produced on this route.) -/
def execute_endpoint (poolReady : Bool) (b : TaskBlob) (st : ExecState) :
    WorkerResponse × ExecState :=
  if poolReady then
    let (v, st₂) := execute_function b st
    (WorkerResponse.blob 200 v, st₂)
  else
    (WorkerResponse.httpException 503 "Worker not ready", st)

/-! ## Client and proxy (`client.py`, `proxy.py`) -/

/-- The parameters accepted by `ZakuroClient.execute` besides `self`
(`client.py` line 70): only `payload`. -/
def zakuroClient_execute_params : List String := ["payload"]

/-- Python call binding, as far as the call sites in scope exercise it:
more positional arguments than parameters, or a keyword argument that
names no parameter, raise `TypeError` before the function body runs. -/
def bindArgs (params : List String) (nPos : Nat) (kwNames : List String) :
    Except PyExc Unit :=
  if params.length < nPos then
    Except.error ⟨"TypeError", "too many positional arguments"⟩
  else
    match kwNames.filter (fun k => !(params.contains k)) with
    | [] => Except.ok ()
    | k :: _ =>
        Except.error ⟨"TypeError", "got an unexpected keyword argument " ++ k⟩

/-- The outcome of a `self._client.execute(...)` call site in
`RemoteProxy`: either a `TypeError` raised while binding the call (before
any HTTP request is made), or the request that would be sent. -/
inductive ProxyCallOutcome where
  | typeError (e : PyExc)
  | requestSent (payload : TaskBlob) (extraHeaders : List (String × String))

/-- A call `client.execute(payload, **kwNames)` : bind one positional
argument plus the given keyword names against `ZakuroClient.execute`'s
parameter list; only on success is the request sent. -/
def zakuroClient_execute_call (kwNames : List String) (payload : TaskBlob)
    (hdrs : List (String × String)) : ProxyCallOutcome :=
  match bindArgs zakuroClient_execute_params 1 kwNames with
  | Except.error e => ProxyCallOutcome.typeError e
  | Except.ok _ => ProxyCallOutcome.requestSent payload hdrs

/-- Model of `RemoteProxy._create_remote_instance` (`proxy.py` lines 49–76): build
the `create_instance` payload and invoke
`self._client.execute(payload, extra_headers={...})`. -/
def remoteProxy_create_remote_instance (instanceId : String) (klass : PyClass)
    (args : List PyVal) (kwargs : List (String × PyVal)) : ProxyCallOutcome :=
  let payload := TaskBlob.ok
    { action := some "create_instance"
      instance_id := some instanceId
      klass := some klass
      args := args
      kwargs := kwargs }
  zakuroClient_execute_call ["extra_headers"] payload
    [("X-Zakuro-Instance-Action", "create_instance"),
     ("X-Zakuro-Instance-Id", instanceId)]

/-- Model of `RemoteProxy._call_remote_method` (`proxy.py` lines 88–117): build the
`call_method` payload and invoke
`self._client.execute(payload, extra_headers={...})`. -/
def remoteProxy_call_remote_method (instanceId : Option String)
    (method : String) (args : List PyVal) (kwargs : List (String × PyVal)) :
    ProxyCallOutcome :=
  let payload := TaskBlob.ok
    { action := some "call_method"
      instance_id := instanceId
      method := some method
      args := args
      kwargs := kwargs }
  zakuroClient_execute_call ["extra_headers"] payload
    [("X-Zakuro-Instance-Action", "call_method"),
     ("X-Zakuro-Instance-Id", instanceId.getD "")]

/-! ## URI parsing (`processors/base.py`)

`ProcessorConfig.from_uri` delegates to the Python standard library's
`urllib.parse.urlparse`.  The model below implements `urlparse` for the
URI shape the repository uses, `scheme://host[:port][/path][?query]`,
over character lists so that every function is structurally recursive and
evaluates by `rfl`/`decide`. -/

/-- Whether the first character list is a prefix of the second (used for
Python's `str.startswith` and substring search). -/
def charsLead : List Char → List Char → Bool
  | [], _ => true
  | _ :: _, [] => false
  | a :: as, b :: bs => if a = b then charsLead as bs else false

/-- Split a character list at the first occurrence of a (non-empty)
separator pattern, returning the pieces before and after it. -/
def splitSub : List Char → List Char → Option (List Char × List Char)
  | [], _ => Option.none
  | c :: cs, pat =>
      if charsLead pat (c :: cs) then
        some ([], (c :: cs).drop pat.length)
      else
        match splitSub cs pat with
        | some (a, b) => some (c :: a, b)
        | Option.none => Option.none

/-- Parse a decimal port string: all digits and non-empty, as `int(...)`
accepts for the URIs in scope; anything else (as raised or rejected by
`urlparse.port`) is `none`. -/
def parsePort (cs : List Char) : Option Nat :=
  if cs ≠ [] ∧ cs.all Char.isDigit then
    some (cs.foldl (fun acc c => 10 * acc + (c.toNat - 48)) 0)
  else
    Option.none

/-- Python's `str.lower()` for the ASCII strings in scope. -/
def strLower (s : String) : String := String.mk (s.toList.map Char.toLower)

/-- The fields of `urllib.parse.urlparse` that `from_uri` reads. -/
structure ParseResult where
  scheme : String
  hostname : Option String
  port : Option Nat
  path : String
  query : String

/-- Modelled from the Python standard library: `urllib.parse.urlparse`
restricted to URIs of the shape `scheme://host[:port][/path][?query]`.
The netloc is everything between `://` and the first `/` or `?`; the
hostname is the netloc before the last `:` (lowercased, `None` when
empty); the port is the decimal suffix after that `:`.  A string with no
`://` parses with an empty scheme and netloc, the whole string as path. -/
def urlparse (uri : String) : ParseResult :=
  match splitSub uri.toList "://".toList with
  | Option.none => ⟨"", Option.none, Option.none, uri, ""⟩
  | some (schemeCs, rest) =>
      let netloc := rest.takeWhile (fun c => c ≠ '/' ∧ c ≠ '?')
      let tail := rest.drop netloc.length
      let path := tail.takeWhile (fun c => c ≠ '?')
      let query := (tail.drop path.length).drop 1
      let (hostCs, portPart) :=
        match splitSub netloc.reverse [':'] with
        | some (revPort, revHost) => (revHost.reverse, some revPort.reverse)
        | Option.none => (netloc, Option.none)
      let hostname : Option String :=
        if hostCs = [] then Option.none
        else some (String.mk (hostCs.map Char.toLower))
      let port : Option Nat :=
        match portPart with
        | some pcs => parsePort pcs
        | Option.none => Option.none
      ⟨String.mk schemeCs, hostname, port, String.mk path, String.mk query⟩

/-- Model of `ProcessorConfig._default_port` (`processors/base.py` lines 63–77):
the scheme-to-port dict, with 8000 as the fallback for unknown schemes. -/
def default_port (scheme : String) : Nat :=
  let defaults : List (String × Nat) :=
    [("zakuro", 8000), ("http", 8000), ("https", 8000), ("ray", 10001),
     ("dask", 8786), ("tcp", 8786), ("spark", 7077), ("zc", 9000),
     ("broker", 9000)]
  match defaults.lookup scheme with
  | some p => p
  | Option.none => 8000

/-- The `ProcessorConfig` dataclass fields built by `from_uri`. -/
structure ProcessorConfig where
  scheme : String
  host : String
  port : Nat
  path : String
  params : List (String × String)

/-- Python's `str.split(sep)` for a single-character separator (used for
`query.split("&")`): splitting the empty string yields one empty piece,
and consecutive separators yield empty pieces. -/
def splitOnChar (cs : List Char) (sep : Char) : List (List Char) :=
  match cs with
  | [] => [[]]
  | c :: rest =>
      let r := splitOnChar rest sep
      if c = sep then [] :: r
      else
        match r with
        | a :: as => (c :: a) :: as
        | [] => [[c]]

/-- The query-parameter loop of `from_uri`: split the query on `&`, keep
the pieces containing `=`, and split each at the first `=`
(`param.split("=", 1)`). -/
def parseParams (query : String) : List (String × String) :=
  if query = "" then []
  else
    (splitOnChar query.toList '&').filterMap (fun param =>
      match splitSub param ['='] with
      | some (k, v) => some (String.mk k, String.mk v)
      | Option.none => Option.none)

/-- Model of `ProcessorConfig.from_uri` (`processors/base.py` lines 34–61):
lowercase the scheme, default the host to `"localhost"`, fall back to the
scheme's default port when the URI has no (truthy) port, and collect the
query parameters. -/
def from_uri (uri : String) : ProcessorConfig :=
  let parsed := urlparse uri
  let scheme := strLower parsed.scheme
  let host := match parsed.hostname with
    | some h => h
    | Option.none => "localhost"
  let port := match parsed.port with
    | some p => if p = 0 then default_port scheme else p
    | Option.none => default_port scheme
  ⟨scheme, host, port, parsed.path, parseParams parsed.query⟩

/-! ## Identity resolution (`processors/broker.py`, `BrokerProcessor.connect`) -/

/-- Python truthiness for an optional string: `None` and `""` are falsy. -/
def truthy (o : Option String) : Bool :=
  match o with
  | some s => s ≠ ""
  | Option.none => false

/-- The index of the last occurrence of a character (`str.rfind`), `none`
when absent (Python answers `-1`; the caller only compares with `> 0`). -/
def lastIdx (cs : List Char) (c : Char) : Option Nat :=
  match cs with
  | [] => Option.none
  | x :: xs =>
      match lastIdx xs c with
      | some i => some (i + 1)
      | Option.none => if x = c then some 0 else Option.none

/-- The key-extraction step of `BrokerProcessor.connect` (`broker.py`
lines 66–71): for a key starting with `"zk_"`, strip the prefix and, when
the remainder has an underscore at a positive index, keep everything
before the last underscore. -/
def extract_user_from_key (key : String) : Option String :=
  if charsLead "zk_".toList key.toList then
    let parts := key.toList.drop 3
    match lastIdx parts '_' with
    | some i => if 0 < i then some (String.mk (parts.take i)) else Option.none
    | Option.none => Option.none
  else
    Option.none

/-- The user-id resolution of `BrokerProcessor.connect` (`broker.py`
lines 60–74): `processor_options["user_id"]` when truthy; else the id
extracted from a truthy `ZAKURO_AUTH` key starting with `"zk_"`; else
`ZAKURO_USER`, `USER`, `"anonymous"` (the environment chain is used even
when its value is falsy). -/
def resolve_user_id (optsUser apiKey zakuroUser userEnv : Option String) :
    String :=
  let afterKey : Option String :=
    if ¬ truthy optsUser ∧ truthy apiKey ∧
        charsLead "zk_".toList (apiKey.getD "").toList then
      match extract_user_from_key (apiKey.getD "") with
      | some uid => some uid
      | Option.none => optsUser
    else optsUser
  let envChain := zakuroUser.getD (userEnv.getD "anonymous")
  match afterKey with
  | some s => if s = "" then envChain else s
  | Option.none => envChain

/-- The default headers installed on the broker client (`broker.py` lines
79–84): `Authorization: Bearer <key>` when an API key is present,
otherwise `X-Zakuro-User: <resolved user id>`. -/
def connect_headers (apiKey : Option String) (userId : String) :
    List (String × String) :=
  if truthy apiKey then
    [("Authorization", "Bearer " ++ apiKey.getD "")]
  else
    [("X-Zakuro-User", userId)]

/-! ## Resource validation (`compute.py`, `Compute.check`) -/

/-- The requested resources of a `Compute`, as `check` reads them:
`self.cpus` (float), `self.memory_bytes()` (int) and `self.gpus` (int),
all compared against numbers from the info dict. -/
structure ComputeRes where
  cpus : Rat
  memoryBytes : Rat
  gpus : Rat

/-- One `info.get(key) ... is not None` validation step of `Compute.check`
(lines 164–186): skip when the key is absent (or bound to `None`), raise
`RuntimeError` when the requested amount exceeds the available number. -/
def check_resource (info : List (String × PyVal)) (key : String) (req : Rat)
    (errMsg : String) : Except PyExc Unit :=
  match dictGet info key with
  | Option.none => Except.ok ()
  | some PyVal.none => Except.ok ()
  | some (PyVal.num a) =>
      if a < req then Except.error ⟨"RuntimeError", errMsg⟩ else Except.ok ()
  | some _ => Except.error ⟨"TypeError", "comparison not supported"⟩

/-- The resource-validation tail of `Compute.check` (`compute.py` lines
164–188), entered after a successful health ping and `/info` fetch: check
`cpus_available`, `memory_available` and `gpus_available` at the top level
of the info dict, then return the info dict. -/
def check_validate (c : ComputeRes) (info : List (String × PyVal)) :
    Except PyExc (List (String × PyVal)) := do
  let _ ← check_resource info "cpus_available" c.cpus "Insufficient CPUs"
  let _ ← check_resource info "memory_available" c.memoryBytes
    "Insufficient memory"
  let _ ← check_resource info "gpus_available" c.gpus "Insufficient GPUs"
  pure info

/-- The shape of the worker's `GET /info` response (`worker/server.py`
lines 106–131): identity and version at the top level, the capacity
fields nested under `"resources"`, hardware and pricing nested under
their own keys, and the tag list.  `cpus_available` mirrors `cpus_total`
and `gpus_available` mirrors `gpus_total`, as in the handler. -/
def worker_info (name workerType : String) (cpus : Rat)
    (memTotal memAvail : Rat) (gpus : Rat)
    (hardware pricing : List (String × PyVal)) (tags : List PyVal) :
    List (String × PyVal) :=
  [("name", PyVal.str name),
   ("worker_type", PyVal.str workerType),
   ("version", PyVal.str "0.2.0"),
   ("resources", PyVal.dict
     [("cpus_total", PyVal.num cpus),
      ("cpus_available", PyVal.num cpus),
      ("memory_total", PyVal.num memTotal),
      ("memory_available", PyVal.num memAvail),
      ("gpus_total", PyVal.num gpus),
      ("gpus_available", PyVal.num gpus)]),
   ("hardware", PyVal.dict hardware),
   ("pricing", PyVal.dict pricing),
   ("tags", PyVal.list tags)]

/-! ## Predicates and sample values used by the theorems -/

/-- The embedded callable of a task payload raises `e` when invoked, in
each of the three dispatch shapes of `execute_function`:

* the payload carries a `func` (so the execute branch runs) and calling it
  raises `e`;
* the payload has no `func`, its action is `create_instance`, and calling
  the embedded class raises `e`;
* the payload has no `func`, its action is `call_method`, the instance is
  present in the store, and the looked-up method raises `e`. -/
def task_raises (p : TaskPayload) (st : ExecState) (e : PyExc) : Prop :=
  (∃ f, p.func = some f ∧ f p.args p.kwargs = Except.error e)
  ∨ (p.func = Option.none ∧ p.action = some "create_instance" ∧
      ∃ k, p.klass = some k ∧ k p.args p.kwargs = Except.error e)
  ∨ (p.func = Option.none ∧ p.action = some "call_method" ∧
      ∃ iid m inst meth, p.instance_id = some iid ∧ p.method = some m ∧
        instGet st.instances iid = some inst ∧
        inst.getattr m = Except.ok meth ∧
        meth p.args p.kwargs = Except.error e)

/-- A sample instance with no attributes (every lookup raises
`AttributeError`), used as a concrete stored object. -/
def attrlessInstance : PyInstance :=
  ⟨fun n => Except.error ⟨"AttributeError", n⟩⟩

/-- A sample class whose constructor always succeeds with
`attrlessInstance`. -/
def attrlessKlass : PyClass := fun _ _ => Except.ok attrlessInstance

/-- A sample function that always raises `ValueError("boom")`. -/
def boomFn : PyCallable := fun _ _ => Except.error ⟨"ValueError", "boom"⟩

/-- A sample function that always returns the number 7. -/
def constSevenFn : PyCallable := fun _ _ => Except.ok (PyVal.num 7)

/-! ## Theorems -/

section ExceptLemmas

variable {ε α β : Type}

/-- Reduction of the `Except` monad bind on a raised exception. -/
theorem except_bind_error (e : ε) (f : α → Except ε β) :
    (Except.error e >>= f : Except ε β) = Except.error e := rfl

/-- Reduction of the `Except` monad bind on a successful value. -/
theorem except_bind_ok (a : α) (f : α → Except ε β) :
    (Except.ok a >>= f : Except ε β) = f a := rfl

/-- Reduction of the `Except` functor map on a raised exception. -/
theorem except_map_error (e : ε) (f : α → β) :
    (f <$> (Except.error e : Except ε α)) = Except.error e := rfl

/-- Reduction of the `Except` functor map on a successful value. -/
theorem except_map_ok (a : α) (f : α → β) :
    (f <$> (Except.ok a : Except ε α)) = Except.ok (f a) := rfl

end ExceptLemmas

/-- C2, counterexample. The claim says a request body that cannot be
decoded is answered with a 5xx status, distinct from the 200 path.  On the
code, the deserialization failure is caught by the catch-all in
`execute_function` (`executor.py` lines 70–72) and answered exactly like a
task-level failure: status 200 with the exception serialized in the body —
not a 5xx status. -/
theorem decode_error_answered_200_not_5xx :
    execute_endpoint true
        (TaskBlob.corrupt ⟨"UnpicklingError", "invalid load key"⟩)
        ExecState.init
      = (WorkerResponse.blob 200
          (PyVal.exc ⟨"UnpicklingError", "invalid load key"⟩),
         ExecState.init)
    ∧ ¬ (500 ≤ 200 ∧ 200 < 600) :=
  ⟨rfl, by decide⟩

/-- C2, amended. For every request body whose deserialization fails,
the worker's `POST /execute` (pool initialized) answers HTTP 200 with the
deserialization exception serialized in the response body — the same path
as task-level failures; no distinct 5xx status exists for decode errors. -/
theorem decode_error_returns_200_with_serialized_exc (e : PyExc)
    (st : ExecState) :
    execute_endpoint true (TaskBlob.corrupt e) st =
      (WorkerResponse.blob 200 (PyVal.exc e), st) := rfl

/-- C3. For every class, constructor arguments and compute target,
`RemoteProxy._create_remote_instance` raises `TypeError` before any
request is sent, because it passes the keyword argument `extra_headers`
which `ZakuroClient.execute` does not accept; the same holds for every
`_call_remote_method` invocation. -/
theorem remote_proxy_calls_raise_type_error (iid : String) (k : PyClass)
    (args : List PyVal) (kwargs : List (String × PyVal))
    (iid₂ : Option String) (m : String) (args₂ : List PyVal)
    (kwargs₂ : List (String × PyVal)) :
    remoteProxy_create_remote_instance iid k args kwargs =
      ProxyCallOutcome.typeError
        ⟨"TypeError", "got an unexpected keyword argument extra_headers"⟩
    ∧ remoteProxy_call_remote_method iid₂ m args₂ kwargs₂ =
      ProxyCallOutcome.typeError
        ⟨"TypeError", "got an unexpected keyword argument extra_headers"⟩ :=
  ⟨rfl, rfl⟩

/-- C6. For every payload with action `"execute"` (or with the action
key absent) carrying a function `f` such that `f(*args, **kwargs)` returns
`v`, the worker's response blob decodes to exactly `v`, and the instance
store is untouched. -/
theorem execute_roundtrip (p : TaskPayload) (st : ExecState)
    (f : PyCallable) (v : PyVal)
    (_ha : p.action = some "execute" ∨ p.action = Option.none)
    (hf : p.func = some f) (hv : f p.args p.kwargs = Except.ok v) :
    execute_function (TaskBlob.ok p) st = (v, st) := by
  simp [execute_function, execute_function_body, hf, hv]

/-- C6, witness. -/
theorem execute_roundtrip_witness :
    execute_function
        (TaskBlob.ok { action := some "execute", func := some constSevenFn })
        ExecState.init
      = (PyVal.num 7, ExecState.init) :=
  execute_roundtrip _ _ constSevenFn _ (Or.inl rfl) rfl rfl

/-- C8. For every `call_method` payload whose `instance_id` is not in
the worker's instance store, the worker answers with the serialized
`ValueError("Instance not found: ...")` and the store is unchanged — no
stored instance is invoked. -/
theorem call_method_missing_instance (iid m : String) (args : List PyVal)
    (kwargs : List (String × PyVal)) (st : ExecState)
    (h : instGet st.instances iid = Option.none) :
    execute_function (TaskBlob.ok
        { action := some "call_method", instance_id := some iid,
          method := some m, args := args, kwargs := kwargs }) st
      = (PyVal.exc ⟨"ValueError", "Instance not found: " ++ iid⟩, st) := by
  simp only [execute_function, execute_function_body, get_instance, h]
  rfl

/-- C8, witness. -/
theorem call_method_missing_instance_witness :
    execute_function (TaskBlob.ok
        { action := some "call_method", instance_id := some "ghost",
          method := some "run", args := [], kwargs := [] }) ExecState.init
      = (PyVal.exc ⟨"ValueError", "Instance not found: ghost"⟩,
         ExecState.init) :=
  call_method_missing_instance "ghost" "run" [] [] ExecState.init rfl

/-- C9. `Compute.check` reads `cpus_available`, `memory_available` and
`gpus_available` at the top level of the info dict, but the worker's
`/info` response nests them under `"resources"`; each lookup therefore
yields `None`, the insufficient-resources branches are unreachable, and
the validation returns the info dict whatever resources were requested. -/
theorem check_validation_unreachable (c : ComputeRes) (name wt : String)
    (cpus memT memA gpus : Rat) (hw pr : List (String × PyVal))
    (tags : List PyVal) :
    dictGet (worker_info name wt cpus memT memA gpus hw pr tags)
        "cpus_available" = Option.none
    ∧ dictGet (worker_info name wt cpus memT memA gpus hw pr tags)
        "memory_available" = Option.none
    ∧ dictGet (worker_info name wt cpus memT memA gpus hw pr tags)
        "gpus_available" = Option.none
    ∧ check_validate c (worker_info name wt cpus memT memA gpus hw pr tags)
      = Except.ok (worker_info name wt cpus memT memA gpus hw pr tags) :=
  ⟨rfl, rfl, rfl, rfl⟩

/-- C10. `execute_function` is total: every request blob gets response
bytes and no exception propagates.  In particular a deserialization
failure and an unknown action (with no `func` key) are both caught and
answered with the serialized exception. -/
theorem execute_function_catches_everything (e : PyExc) (st st₂ : ExecState)
    (p : TaskPayload) (a : String)
    (hact : p.action = some a) (h₁ : a ≠ "execute")
    (h₂ : a ≠ "create_instance") (h₃ : a ≠ "call_method")
    (hf : p.func = Option.none) :
    execute_function (TaskBlob.corrupt e) st = (PyVal.exc e, st)
    ∧ execute_function (TaskBlob.ok p) st₂
      = (PyVal.exc ⟨"ValueError", "Unknown action: " ++ a⟩, st₂) := by
  refine ⟨rfl, ?_⟩
  simp only [execute_function, execute_function_body, hact, hf,
    Option.getD_some, Option.isSome_none, Bool.false_eq_true, or_false,
    if_neg h₁, if_neg h₂, if_neg h₃]

/-- C10, witness. -/
theorem execute_function_catches_everything_witness :
    execute_function (TaskBlob.corrupt ⟨"UnpicklingError", "bad bytes"⟩)
        ExecState.init
      = (PyVal.exc ⟨"UnpicklingError", "bad bytes"⟩, ExecState.init)
    ∧ execute_function (TaskBlob.ok { action := some "frobnicate" })
        ExecState.init
      = (PyVal.exc ⟨"ValueError", "Unknown action: frobnicate"⟩,
         ExecState.init) :=
  execute_function_catches_everything _ _ _ _ "frobnicate" rfl
    (by decide) (by decide) (by decide) rfl

/-- C1. For every task payload whose embedded function, method or
constructor raises an exception when invoked, the worker's
`POST /execute` (pool initialized) answers with HTTP status 200 and the
serialized exception as the response body — not a non-2xx status — and
the instance store is unchanged. -/
theorem task_error_answered_200 (p : TaskPayload) (st : ExecState)
    (e : PyExc) (h : task_raises p st e) :
    execute_endpoint true (TaskBlob.ok p) st =
      (WorkerResponse.blob 200 (PyVal.exc e), st) := by
  have hbody : execute_function_body p st = Except.error e := by
    rcases h with ⟨f, hf, he⟩ | ⟨hf, ha, k, hk, he⟩ |
      ⟨hf, ha, iid, m, inst, meth, hiid, hm, hinst, hget, he⟩
    · simp [execute_function_body, hf, he]
    · simp [execute_function_body, hf, ha, hk, he, except_bind_error]
    · simp [execute_function_body, hf, ha, hiid, hm, get_instance, hinst,
        hget, he, except_bind_error, except_bind_ok, except_map_error]
  simp [execute_endpoint, execute_function, hbody]

/-- C1, witness. -/
theorem task_error_answered_200_witness :
    execute_endpoint true
        (TaskBlob.ok { action := some "execute", func := some boomFn })
        ExecState.init
      = (WorkerResponse.blob 200 (PyVal.exc ⟨"ValueError", "boom"⟩),
         ExecState.init) :=
  task_error_answered_200 _ _ _ (Or.inl ⟨boomFn, rfl, rfl⟩)

/-- C4, counterexample. The claim says `from_uri` assigns default port
3960 to the `zakuro` scheme; the code's `_default_port` dict (and the
repository's own tests) assign 8000. -/
theorem zakuro_scheme_default_port_not_3960 :
    (from_uri "zakuro://worker").port = 8000 ∧ (8000 : Nat) ≠ 3960 := by
  decide

/-- C4, amended. For every URI that omits an explicit port,
`ProcessorConfig.from_uri` assigns the scheme's default port: 9000 for
scheme `zc` (broker) and 8000 for scheme `zakuro` (direct worker). -/
theorem from_uri_default_port (uri : String)
    (h : (urlparse uri).port = Option.none) :
    (from_uri uri).port = default_port (strLower (urlparse uri).scheme)
    ∧ default_port "zc" = 9000 ∧ default_port "zakuro" = 8000 := by
  refine ⟨?_, by decide, by decide⟩
  simp [from_uri, h]

/-- C4, witness. -/
theorem from_uri_default_port_witness :
    (from_uri "zakuro://worker").port
      = default_port (strLower (urlparse "zakuro://worker").scheme)
    ∧ default_port "zc" = 9000 ∧ default_port "zakuro" = 8000 :=
  from_uri_default_port "zakuro://worker" (by decide)

/-- C5, counterexample. The claim says a client-provided `instance_id`
is honored verbatim whenever one is supplied.  A supplied empty id is
falsy in Python, so `execute_function` ignores it: the object is stored
under the generated `"instance_1"`, the response envelope carries
`"instance_1"`, and nothing is stored under `""`. -/
theorem empty_instance_id_not_honored :
    execute_function (TaskBlob.ok
        { action := some "create_instance", klass := some attrlessKlass,
          instance_id := some "" }) ExecState.init
      = (PyVal.dict [("instance_id", PyVal.str "instance_1")],
         ⟨[("instance_1", attrlessInstance)], 1⟩)
    ∧ ("instance_1" : String) ≠ "" :=
  ⟨rfl, by decide⟩

/-- C5, amended. For every `create_instance` payload whose constructor
succeeds, the worker stores the object under the client-provided
`instance_id` verbatim when a non-empty (truthy) one is supplied;
otherwise (id absent — and likewise when it is empty) under the
server-generated id `"instance_{counter+1}"`, advancing the monotonically
increasing counter, so the n-th generated id from the initial state is
`"instance_n"`; the response envelope carries the id actually used. -/
theorem create_instance_id_assignment (k : PyClass) (args : List PyVal)
    (kwargs : List (String × PyVal)) (st : ExecState) (inst : PyInstance)
    (cid : String)
    (hk : k args kwargs = Except.ok inst) (hcid : cid ≠ "") :
    execute_function (TaskBlob.ok
        { action := some "create_instance", klass := some k,
          instance_id := some cid, args := args, kwargs := kwargs }) st
      = (PyVal.dict [("instance_id", PyVal.str cid)],
         { st with instances := (cid, inst) :: st.instances })
    ∧ execute_function (TaskBlob.ok
        { action := some "create_instance", klass := some k,
          instance_id := Option.none, args := args, kwargs := kwargs }) st
      = (PyVal.dict
           [("instance_id",
             PyVal.str ("instance_" ++ toString (st.counter + 1)))],
         ⟨("instance_" ++ toString (st.counter + 1), inst) :: st.instances,
          st.counter + 1⟩)
    ∧ execute_function (TaskBlob.ok
        { action := some "create_instance", klass := some k,
          instance_id := some "", args := args, kwargs := kwargs }) st
      = (PyVal.dict
           [("instance_id",
             PyVal.str ("instance_" ++ toString (st.counter + 1)))],
         ⟨("instance_" ++ toString (st.counter + 1), inst) :: st.instances,
          st.counter + 1⟩) := by
  refine ⟨?_, ?_, ?_⟩ <;>
    simp [execute_function, execute_function_body, store_instance, hk, hcid]

/-- C5, witness. -/
theorem create_instance_id_assignment_witness :
    execute_function (TaskBlob.ok
        { action := some "create_instance", klass := some attrlessKlass,
          instance_id := some "client-id-7", args := [], kwargs := [] })
        ExecState.init
      = (PyVal.dict [("instance_id", PyVal.str "client-id-7")],
         { ExecState.init with
            instances := ("client-id-7", attrlessInstance)
              :: ExecState.init.instances })
    ∧ execute_function (TaskBlob.ok
        { action := some "create_instance", klass := some attrlessKlass,
          instance_id := Option.none, args := [], kwargs := [] })
        ExecState.init
      = (PyVal.dict
           [("instance_id",
             PyVal.str ("instance_" ++ toString (ExecState.init.counter + 1)))],
         ⟨("instance_" ++ toString (ExecState.init.counter + 1),
             attrlessInstance) :: ExecState.init.instances,
          ExecState.init.counter + 1⟩)
    ∧ execute_function (TaskBlob.ok
        { action := some "create_instance", klass := some attrlessKlass,
          instance_id := some "", args := [], kwargs := [] })
        ExecState.init
      = (PyVal.dict
           [("instance_id",
             PyVal.str ("instance_" ++ toString (ExecState.init.counter + 1)))],
         ⟨("instance_" ++ toString (ExecState.init.counter + 1),
             attrlessInstance) :: ExecState.init.instances,
          ExecState.init.counter + 1⟩) :=
  create_instance_id_assignment attrlessKlass [] [] ExecState.init
    attrlessInstance "client-id-7" rfl (by decide)

/-- Helper: `lastIdx` finds nothing in a list avoiding the character. -/
theorem lastIdx_of_not_mem (l : List Char) (c : Char) (h : c ∉ l) :
    lastIdx l c = Option.none := by
  induction l with
  | nil => rfl
  | cons x xs ih =>
      have hx : ¬ x = c := fun he => h (he ▸ List.mem_cons_self x xs)
      simp only [lastIdx, ih (fun hm => h (List.mem_cons_of_mem x hm))]
      simp [hx]

/-- Helper: `lastIdx` finds the separator when everything after it avoids it. -/
theorem lastIdx_append_cons (l₁ l₂ : List Char) (c : Char) (h : c ∉ l₂) :
    lastIdx (l₁ ++ c :: l₂) c = some l₁.length := by
  induction l₁ with
  | nil => simp [lastIdx, lastIdx_of_not_mem l₂ c h]
  | cons x xs ih => simp [lastIdx, ih]

/-- The character list of a `zk_`-prefixed key assembled from a user id
and a random suffix. -/
theorem zk_key_toList (uid rand : String) :
    ("zk_" ++ uid ++ "_" ++ rand).toList
      = 'z' :: 'k' :: '_' :: (uid.toList ++ '_' :: rand.toList) := by
  show (((['z', 'k', '_'] ++ uid.data) ++ ['_']) ++ rand.data)
      = 'z' :: 'k' :: '_' :: (uid.data ++ '_' :: rand.data)
  simp

/-- The character list of the literal `"zk_"`. -/
theorem zk_toList : "zk_".toList = ['z', 'k', '_'] := rfl

/-- Computation rule: `"zk_"` leads any list continuing `'z' :: 'k' :: '_'`. -/
theorem charsLead_zk (rest : List Char) :
    charsLead ['z', 'k', '_'] ('z' :: 'k' :: '_' :: rest) = true := rfl

/-- The key-extraction of `BrokerProcessor.connect` on a well-formed key
`zk_<user_id>_<random>` (non-empty user id, no underscore in the random
suffix) yields the substring strictly between the `zk_` prefix and the
final underscore, i.e. the user id. -/
theorem extract_user_from_key_append (uid rand : String)
    (huid : uid ≠ "") (hrand : '_' ∉ rand.toList) :
    extract_user_from_key ("zk_" ++ uid ++ "_" ++ rand) = some uid := by
  have hne : uid.toList ≠ [] := by
    intro h
    exact huid (by cases uid; simp_all [String.toList])
  simp only [extract_user_from_key, zk_key_toList, zk_toList, charsLead_zk,
    if_true, List.drop_succ_cons, List.drop_zero,
    lastIdx_append_cons uid.toList rand.toList '_' hrand]
  rw [if_pos (List.length_pos.mpr hne), List.take_left]
  rfl

/-- The key `zk_<uid>_<rand>` is a non-empty string. -/
theorem zk_key_ne_empty (uid rand : String) :
    ("zk_" ++ uid ++ "_" ++ rand) ≠ "" := by
  intro h
  have := congrArg String.toList h
  rw [zk_key_toList] at this
  simp [String.toList] at this

/-- C7. With an API key of the form `zk_<user_id>_<random>` (and no
`processor_options` override), the user id used for the broker is the
substring strictly between the `zk_` prefix and the final underscore;
with no key, the identity falls back to the `ZAKURO_USER` / `USER`
environment chain and ultimately `"anonymous"`, and that identity is sent
as the `X-Zakuro-User` header. -/
theorem broker_identity_resolution (uid rand : String) (zu ue : Option String)
    (huid : uid ≠ "") (hrand : '_' ∉ rand.toList) :
    resolve_user_id Option.none (some ("zk_" ++ uid ++ "_" ++ rand)) zu ue
      = uid
    ∧ (∀ zu₂ ue₂ : Option String,
        resolve_user_id Option.none Option.none zu₂ ue₂
          = zu₂.getD (ue₂.getD "anonymous")
        ∧ connect_headers Option.none
            (resolve_user_id Option.none Option.none zu₂ ue₂)
          = [("X-Zakuro-User", zu₂.getD (ue₂.getD "anonymous"))]) := by
  refine ⟨?_, fun zu₂ ue₂ => ⟨rfl, rfl⟩⟩
  simp [resolve_user_id, truthy, zk_key_ne_empty uid rand, zk_key_toList,
    zk_toList, charsLead_zk,
    extract_user_from_key_append uid rand huid hrand, huid]

/-- C7, witness. -/
theorem broker_identity_resolution_witness :
    resolve_user_id Option.none (some ("zk_" ++ "alice" ++ "_" ++ "r4nd"))
        Option.none Option.none = "alice"
    ∧ (∀ zu₂ ue₂ : Option String,
        resolve_user_id Option.none Option.none zu₂ ue₂
          = zu₂.getD (ue₂.getD "anonymous")
        ∧ connect_headers Option.none
            (resolve_user_id Option.none Option.none zu₂ ue₂)
          = [("X-Zakuro-User", zu₂.getD (ue₂.getD "anonymous"))]) :=
  broker_identity_resolution "alice" "r4nd" Option.none Option.none
    (by decide) (by decide)

end Zakuro
